import Mathlib

/-!
# Verification of the air-crash-simulation entity model

A shallow embedding of `tools/aircraft.py` and `tools/airport.py`.

Conventions used throughout:
* Python floats are modelled as exact rationals (`ℚ`); 2D pygame vectors as
  pairs `ℚ × ℚ`.
* Python `%` on floats (result carries the sign of the divisor) is `fmod`.
* Trigonometric functions (`math.sin`/`math.cos` applied to a heading
  converted to radians) and the geometric helpers built on `math.sqrt` /
  `math.atan2` (`Vector2.distance_to`, `Airport._calculate_heading`) are not
  rational-valued, so they enter the model as abstract function parameters
  (`sinD`, `cosD`, `Geom.dist`, `Geom.calcHeading`).  Every property proved
  here holds for all choices of these functions (at times under explicitly
  stated pointwise assumptions such as `sinD 0 = 0`).
* Code that can raise a Python exception is modelled in `Option`: `none`
  means the corresponding Python call raises.
-/

namespace Sim

/-- Python float modulo with a positive divisor: `a - b * ⌊a / b⌋`.
For `b > 0` the result lies in `[0, b)`, matching CPython `%` semantics. -/
def fmod (a b : ℚ) : ℚ := a - b * (Rat.floor (a / b) : ℚ)

/-! ## Aircraft (`tools/aircraft.py`) -/

/-- One entry of `Aircraft.flight_data`:
`(timestamp, (x, y), heading, speed, status)`. -/
structure FlightSample where
  time : ℚ
  pos : ℚ × ℚ
  heading : ℚ
  speed : ℚ
  status : String
deriving DecidableEq, Repr

/-- A value carried by a queued command.  Python stores arbitrary objects in
`cmd["value"]`; the commands of this code base carry either a number
(heading / speed / altitude) or a string (status). -/
inductive CmdVal where
  | num (q : ℚ)
  | str (s : String)
deriving DecidableEq, Repr

/-- One entry of `Aircraft.commands`, as built by `add_command`. -/
structure Command where
  type : String
  value : CmdVal
  execution_time : Option ℚ
  completed : Bool
deriving DecidableEq, Repr

/-- The mutable state of `Aircraft`.  `color` and the pygame drawing code are
presentation-only and omitted; `altitude` is a `CmdVal` because an
`"altitude"` command stores its raw value into the attribute without any
conversion. -/
structure Aircraft where
  callsign : String
  aircraft_type : String
  position : ℚ × ℚ
  heading : ℚ
  speed : ℚ
  altitude : CmdVal
  fuel : ℚ
  size : ℚ × ℚ
  status : String
  commands : List Command
  flight_data : List FlightSample
deriving DecidableEq, Repr

/-- `Aircraft.__init__`. -/
def Aircraft.init (callsign aircraft_type : String) (position : ℚ × ℚ)
    (heading speed : ℚ) (size : ℚ × ℚ) : Aircraft :=
  { callsign := callsign
    aircraft_type := aircraft_type
    position := position
    heading := heading
    speed := speed
    altitude := .num 0
    fuel := 100
    size := size
    status := "parked"
    commands := []
    flight_data := [] }

/-- `Aircraft.move(delta_time)`.  `sinD h` / `cosD h` stand for
`math.sin(math.radians(h))` / `math.cos(math.radians(h))`; `now` stands for
`pygame.time.get_ticks() / 1000` at the moment of the call. -/
def Aircraft.move (sinD cosD : ℚ → ℚ) (now delta_time : ℚ) (a : Aircraft) :
    Aircraft :=
  if a.status = "crashed" then a
  else
    let speed_factor := a.speed * (0.1 : ℚ)
    let dx := sinD a.heading * speed_factor * delta_time
    let dy := -cosD a.heading * speed_factor * delta_time
    let a1 := { a with position := (a.position.1 + dx, a.position.2 + dy) }
    if a1.flight_data.isEmpty ||
        (match a1.flight_data.getLast? with
          | some s => decide (s.time + 1 < now)
          | none => false) then
      { a1 with flight_data := a1.flight_data ++
          [⟨now, a1.position, a1.heading, a1.speed, a1.status⟩] }
    else a1

/-- `Aircraft.set_course(new_heading)`. -/
def Aircraft.set_course (a : Aircraft) (new_heading : ℚ) : Aircraft :=
  { a with heading := fmod new_heading 360 }

/-- `Aircraft.change_speed(new_speed)`. -/
def Aircraft.change_speed (a : Aircraft) (new_speed : ℚ) : Aircraft :=
  { a with speed := max 0 new_speed }

/-- The `valid_statuses` list of `Aircraft.change_status`. -/
def valid_statuses : List String :=
  ["parked", "taxiing", "takeoff", "landing", "airborne", "crashed"]

/-- `Aircraft.change_status(new_status)`. -/
def Aircraft.change_status (a : Aircraft) (new_status : String) : Aircraft :=
  if new_status ∈ valid_statuses then { a with status := new_status } else a

/-- `Aircraft.add_command(command_type, value, execution_time=None)`. -/
def Aircraft.add_command (a : Aircraft) (command_type : String) (value : CmdVal)
    (execution_time : Option ℚ) : Aircraft :=
  { a with commands := a.commands ++
      [{ type := command_type, value := value,
         execution_time := execution_time, completed := false }] }

/-- The guard `cmd["execution_time"] is None or current_time >= cmd["execution_time"]`. -/
def Command.due (t : ℚ) (c : Command) : Bool :=
  match c.execution_time with
  | none => true
  | some e => decide (e ≤ t)

/-- The type-dispatch of one command inside `process_commands`.  `none`
models the Python `TypeError` raised by `str % 360` or `max(0, str)`; a
numeric value given to a `"status"` command is simply never contained in
`valid_statuses`, so that call succeeds and changes nothing. -/
def Aircraft.applyCommand (a : Aircraft) (t : String) (v : CmdVal) :
    Option Aircraft :=
  if t = "heading" then
    match v with
    | .num q => some (a.set_course q)
    | .str _ => none
  else if t = "speed" then
    match v with
    | .num q => some (a.change_speed q)
    | .str _ => none
  else if t = "status" then
    match v with
    | .str s => some (a.change_status s)
    | .num _ => some a
  else if t = "altitude" then
    some { a with altitude := v }
  else
    some a

/-- The loop body of `process_commands`: walks the queue in insertion
order, applying each due, not-yet-completed command and marking it
completed; returns the rewritten queue together with the updated
aircraft attributes. -/
def Aircraft.processLoop (t : ℚ) : List Command → Aircraft →
    Option (List Command × Aircraft)
  | [], a => some ([], a)
  | c :: cs, a =>
    if c.completed then
      (Aircraft.processLoop t cs a).map (fun p => (c :: p.1, p.2))
    else if c.due t then
      match a.applyCommand c.type c.value with
      | none => none
      | some a1 =>
        (Aircraft.processLoop t cs a1).map
          (fun p => ({ c with completed := true } :: p.1, p.2))
    else
      (Aircraft.processLoop t cs a).map (fun p => (c :: p.1, p.2))

/-- `Aircraft.process_commands(current_time)`. -/
def Aircraft.process_commands (t : ℚ) (a : Aircraft) : Option Aircraft :=
  (Aircraft.processLoop t a.commands a).map
    (fun p => { p.2 with commands := p.1 })

/-! ## Airport (`tools/airport.py`) -/

/-- The geometric helpers of `airport.py` that are not rational-valued:
`dist` models `Vector2.distance_to` (a Euclidean square root) and
`calcHeading` models `Airport._calculate_heading` (an `atan2` in degrees,
reduced mod 360).  All theorems below hold for every choice of these
functions; what matters to the claims is only that `add_runway` applies the
same functions at creation time and at load time. -/
structure Geom where
  dist : ℚ × ℚ → ℚ × ℚ → ℚ
  calcHeading : ℚ × ℚ → ℚ × ℚ → ℚ

/-- A runway record as built by `Airport.add_runway`. -/
structure Runway where
  name : String
  start_pos : ℚ × ℚ
  end_pos : ℚ × ℚ
  width : ℚ
  active : Bool
  length : ℚ
  heading : ℚ
deriving DecidableEq, Repr

/-- A taxiway record as built by `Airport.add_taxiway`. -/
structure Taxiway where
  name : String
  points : List (ℚ × ℚ)
  width : ℚ
deriving DecidableEq, Repr

/-- A gate record as built by `Airport.add_gate`. -/
structure Gate where
  name : String
  position : ℚ × ℚ
  heading : ℚ
  size : ℚ
  occupied : Bool
deriving DecidableEq, Repr

/-- A building record as built by `Airport.add_building`. -/
structure Building where
  name : String
  polygon : List (ℚ × ℚ)
  height : ℚ
  type : String
deriving DecidableEq, Repr

/-- The `Airport.weather` dictionary. -/
structure Weather where
  visibility : ℚ
  fog_density : ℚ
  wind_direction : ℚ
  wind_speed : ℚ
  precipitation : Option String
deriving DecidableEq, Repr

/-- The mutable state of `Airport`; `background_image` (presentation only)
is omitted. -/
structure Airport where
  name : String
  code : String
  location : ℚ × ℚ
  runways : List Runway
  taxiways : List Taxiway
  gates : List Gate
  buildings : List Building
  weather : Weather
  scale : ℚ
deriving DecidableEq, Repr

/-- `Airport.__init__` with no collection arguments. -/
def Airport.init (name code : String) (location : ℚ × ℚ) : Airport :=
  { name := name
    code := code
    location := location
    runways := []
    taxiways := []
    gates := []
    buildings := []
    weather :=
      { visibility := 10000, fog_density := 0, wind_direction := 0,
        wind_speed := 0, precipitation := none }
    scale := 1 }

/-- `Airport.add_runway(name, start_pos, end_pos, width=45, active=True)`. -/
def Airport.add_runway (g : Geom) (ap : Airport) (name : String)
    (start_pos end_pos : ℚ × ℚ) (width : ℚ) (active : Bool) : Airport :=
  { ap with runways := ap.runways ++
      [{ name := name
         start_pos := start_pos
         end_pos := end_pos
         width := width
         active := active
         length := g.dist start_pos end_pos
         heading := g.calcHeading start_pos end_pos }] }

/-- `Airport.add_taxiway(name, points, width=15)`. -/
def Airport.add_taxiway (ap : Airport) (name : String) (points : List (ℚ × ℚ))
    (width : ℚ) : Airport :=
  { ap with taxiways := ap.taxiways ++
      [{ name := name, points := points, width := width }] }

/-- `Airport.add_gate(name, position, heading=0, size=1)`; note the
unconditional `"occupied": False`. -/
def Airport.add_gate (ap : Airport) (name : String) (position : ℚ × ℚ)
    (heading size : ℚ) : Airport :=
  { ap with gates := ap.gates ++
      [{ name := name, position := position, heading := heading,
         size := size, occupied := false }] }

/-- `Airport.add_building(name, polygon, height=10, type="terminal")`. -/
def Airport.add_building (ap : Airport) (name : String)
    (polygon : List (ℚ × ℚ)) (height : ℚ) (type : String) : Airport :=
  { ap with buildings := ap.buildings ++
      [{ name := name, polygon := polygon, height := height, type := type }] }

/-- `Airport.set_weather(...)`: each `Option` argument models the Python
keyword argument with default `None` (the "unset" sentinel tested by
`is not None`). -/
def Airport.set_weather (ap : Airport) (visibility fog_density wind_direction
    wind_speed : Option ℚ) (precipitation : Option String) : Airport :=
  let w := ap.weather
  let w := match visibility with
    | some v => { w with visibility := v }
    | none => w
  let w := match fog_density with
    | some f => { w with fog_density := max 0 (min 1 f) }
    | none => w
  let w := match wind_direction with
    | some d => { w with wind_direction := fmod d 360 }
    | none => w
  let w := match wind_speed with
    | some s => { w with wind_speed := max 0 s }
    | none => w
  let w := match precipitation with
    | some p => { w with precipitation := some p }
    | none => w
  { ap with weather := w }

/-- One output record of `get_active_runways`. -/
structure RunwayChoice where
  runway : Runway
  direction : String
  heading : ℚ
  difference : ℚ
deriving DecidableEq, Repr

/-- The loop body of `get_active_runways`: pick, for one active runway, the
physical direction (stored heading or its reciprocal) closer to the wind. -/
def chooseDirection (wind : ℚ) (r : Runway) : RunwayChoice :=
  let heading := r.heading
  let reverse_heading := fmod (heading + 180) 360
  let diff1 := |fmod (heading - wind + 180) 360 - 180|
  let diff2 := |fmod (reverse_heading - wind + 180) 360 - 180|
  if diff1 ≤ diff2 then
    { runway := r, direction := "normal", heading := heading,
      difference := diff1 }
  else
    { runway := r, direction := "reverse", heading := reverse_heading,
      difference := diff2 }

/-- `Airport.get_active_runways(wind_direction=None)`.  Python's
`list.sort` is a stable sort; `List.mergeSort` is the stable sort of the
Lean library, so the two agree on every input. -/
def Airport.get_active_runways (ap : Airport) (wind_direction : Option ℚ) :
    List RunwayChoice :=
  let wind := wind_direction.getD ap.weather.wind_direction
  ((ap.runways.filter (·.active)).map (chooseDirection wind)).mergeSort
    (fun x y => decide (x.difference ≤ y.difference))

/-! ## Scenario serialization (`load_from_file` / `save_to_file`)

The JSON documents read and written by the code are modelled structurally.
A field accessed with `data[key]` (raising `KeyError` when absent) is an
`Option` consumed fallibly; a field accessed with `data.get(key, default)`
is an `Option` consumed with `Option.getD`.  A `none` at the whole-file
level models an exception during `open`/`json.load` (missing file, bad
JSON); a `none` arising while a record is consumed models a `KeyError`.
Writing is modelled by a `writeOk` flag: `false` means the `open`/
`json.dump` call raises. -/

/-- One element of the `"runways"` array in the file. -/
structure RunwayData where
  name : Option String
  start_pos : Option (ℚ × ℚ)
  end_pos : Option (ℚ × ℚ)
  width : Option ℚ
  active : Option Bool
deriving DecidableEq, Repr

/-- One element of the `"taxiways"` array in the file. -/
structure TaxiwayData where
  name : Option String
  points : Option (List (ℚ × ℚ))
  width : Option ℚ
deriving DecidableEq, Repr

/-- One element of the `"gates"` array in the file.  `occupied` is written
by `save_to_file` but never read back by `load_from_file`. -/
structure GateData where
  name : Option String
  position : Option (ℚ × ℚ)
  heading : Option ℚ
  size : Option ℚ
  occupied : Option Bool
deriving DecidableEq, Repr

/-- One element of the `"buildings"` array in the file. -/
structure BuildingData where
  name : Option String
  polygon : Option (List (ℚ × ℚ))
  height : Option ℚ
  type : Option String
deriving DecidableEq, Repr

/-- The `"weather"` object in the file, passed to `set_weather(**...)`:
absent keys become the `None` defaults of the keyword parameters. -/
structure WeatherData where
  visibility : Option ℚ
  fog_density : Option ℚ
  wind_direction : Option ℚ
  wind_speed : Option ℚ
  precipitation : Option String
deriving DecidableEq, Repr

/-- A whole scenario file. -/
structure AirportData where
  name : Option String
  code : Option String
  location : Option (ℚ × ℚ)
  runways : Option (List RunwayData)
  taxiways : Option (List TaxiwayData)
  gates : Option (List GateData)
  buildings : Option (List BuildingData)
  weather : Option WeatherData
deriving DecidableEq, Repr

/-- One iteration of the runway-loading loop of `load_from_file`:
`runway_data["name"]`, `["start_pos"]` and `["end_pos"]` raise when
missing, `width` and `active` fall back to the `add_runway` defaults. -/
def loadRunway (g : Geom) (ap : Airport) (rd : RunwayData) : Option Airport := do
  let name ← rd.name
  let sp ← rd.start_pos
  let ep ← rd.end_pos
  some (ap.add_runway g name sp ep (rd.width.getD 45) (rd.active.getD true))

/-- One iteration of the taxiway-loading loop of `load_from_file`. -/
def loadTaxiway (ap : Airport) (td : TaxiwayData) : Option Airport := do
  let name ← td.name
  let pts ← td.points
  some (ap.add_taxiway name pts (td.width.getD 15))

/-- One iteration of the gate-loading loop of `load_from_file`: the
`occupied` value possibly present in the file is never passed on. -/
def loadGate (ap : Airport) (gd : GateData) : Option Airport := do
  let name ← gd.name
  let pos ← gd.position
  some (ap.add_gate name pos (gd.heading.getD 0) (gd.size.getD 1))

/-- One iteration of the building-loading loop of `load_from_file`. -/
def loadBuilding (ap : Airport) (bd : BuildingData) : Option Airport := do
  let name ← bd.name
  let poly ← bd.polygon
  some (ap.add_building name poly (bd.height.getD 10) (bd.type.getD "terminal"))

/-- The body of the `try` block of `load_from_file`, applied to an already
parsed document: update name/code/location, reset and rebuild each
collection through the `add_*` constructors, then apply the weather. -/
def Airport.load_data (g : Geom) (ap : Airport) (d : AirportData) :
    Option Airport :=
  let ap0 := { ap with
    name := d.name.getD ap.name
    code := d.code.getD ap.code
    location := d.location.getD (0, 0) }
  ((d.runways.getD []).foldlM (loadRunway g) { ap0 with runways := [] }).bind
    fun ap1 =>
  ((d.taxiways.getD []).foldlM loadTaxiway { ap1 with taxiways := [] }).bind
    fun ap2 =>
  ((d.gates.getD []).foldlM loadGate { ap2 with gates := [] }).bind
    fun ap3 =>
  ((d.buildings.getD []).foldlM loadBuilding { ap3 with buildings := [] }).bind
    fun ap4 =>
  some (match d.weather with
    | some w => ap4.set_weather w.visibility w.fog_density w.wind_direction
        w.wind_speed w.precipitation
    | none => ap4)

/-- `Airport.load_from_file(filename)`.  `file = none` models an exception
during `open`/`json.load`; any exception inside the `try` block is caught,
a diagnostic is printed, and `False` is returned.  (On such a failure the
Python object may keep partial updates; only the boolean outcome and the
success state are claimed, so the failure branch returns the receiver
unchanged.) -/
def Airport.load_from_file (g : Geom) (ap : Airport) (file : Option AirportData) :
    Bool × Airport :=
  match file.bind (ap.load_data g) with
  | some ap1 => (true, ap1)
  | none => (false, ap)

/-- The runway dictionary written by `save_to_file`. -/
def saveRunwayData (r : Runway) : RunwayData :=
  { name := some r.name
    start_pos := some r.start_pos
    end_pos := some r.end_pos
    width := some r.width
    active := some r.active }

/-- The taxiway dictionary written by `save_to_file`. -/
def saveTaxiwayData (t : Taxiway) : TaxiwayData :=
  { name := some t.name, points := some t.points, width := some t.width }

/-- The gate dictionary written by `save_to_file`: `occupied` is written. -/
def saveGateData (gt : Gate) : GateData :=
  { name := some gt.name
    position := some gt.position
    heading := some gt.heading
    size := some gt.size
    occupied := some gt.occupied }

/-- The building dictionary written by `save_to_file`. -/
def saveBuildingData (b : Building) : BuildingData :=
  { name := some b.name, polygon := some b.polygon, height := some b.height,
    type := some b.type }

/-- The document assembled by `save_to_file` before writing. -/
def Airport.save_data (ap : Airport) : AirportData :=
  { name := some ap.name
    code := some ap.code
    location := some ap.location
    runways := some (ap.runways.map saveRunwayData)
    taxiways := some (ap.taxiways.map saveTaxiwayData)
    gates := some (ap.gates.map saveGateData)
    buildings := some (ap.buildings.map saveBuildingData)
    weather := some
      { visibility := some ap.weather.visibility
        fog_density := some ap.weather.fog_density
        wind_direction := some ap.weather.wind_direction
        wind_speed := some ap.weather.wind_speed
        precipitation := ap.weather.precipitation } }

/-- `Airport.save_to_file(filename)`: the document is assembled, then the
write either succeeds (`writeOk = true`, returning `True`) or raises; the
exception is caught and `False` returned. -/
def Airport.save_to_file (ap : Airport) (writeOk : Bool) :
    Bool × AirportData :=
  (writeOk, ap.save_data)

/-! ## Shared helper lemmas -/

/-- `move` is a no-op on a crashed aircraft. -/
lemma move_crashed (sinD cosD : ℚ → ℚ) (now dt : ℚ) (a : Aircraft)
    (h : a.status = "crashed") : a.move sinD cosD now dt = a := by
  simp [Aircraft.move, h]

/-- A whole sequence of `move` calls is a no-op on a crashed aircraft. -/
lemma foldl_move_crashed (sinD cosD : ℚ → ℚ) (a : Aircraft)
    (h : a.status = "crashed") (steps : List (ℚ × ℚ)) :
    steps.foldl (fun ac p => ac.move sinD cosD p.1 p.2) a = a := by
  induction steps with
  | nil => rfl
  | cons s steps ih => rw [List.foldl_cons, move_crashed _ _ _ _ _ h, ih]

/-- The position written by `move` on a non-crashed aircraft. -/
lemma move_position (sinD cosD : ℚ → ℚ) (now dt : ℚ) (a : Aircraft)
    (h : a.status ≠ "crashed") :
    (a.move sinD cosD now dt).position =
      (a.position.1 + sinD a.heading * (a.speed * (0.1 : ℚ)) * dt,
       a.position.2 - cosD a.heading * (a.speed * (0.1 : ℚ)) * dt) := by
  unfold Aircraft.move
  rw [if_neg h]
  dsimp only
  split <;> simp [sub_eq_add_neg]

/-- A concrete aircraft used by the evaluation witnesses. -/
def testAircraft : Aircraft :=
  Aircraft.init "KLM4805" "Boeing 747-200" (0, 0) 0 100 (50, 50)

/-! ## Claims C3, C5, C8, C6, C7 -/

/-- C3: for every aircraft whose status is `"crashed"` and every sequence
of `move(delta_time)` calls (with arbitrary tick times and arbitrary
`delta_time` values), the aircraft's position is unchanged after the
sequence: `move` is a no-op on a crashed aircraft. -/
theorem claim_C3_crashed_move_noop (sinD cosD : ℚ → ℚ) (a : Aircraft)
    (h : a.status = "crashed") (steps : List (ℚ × ℚ)) :
    (steps.foldl (fun ac p => ac.move sinD cosD p.1 p.2) a).position =
      a.position := by
  rw [foldl_move_crashed sinD cosD a h steps]

theorem claim_C3_witness :
    (([((0 : ℚ), (1 : ℚ)), (3, 2), (4, 100)]).foldl
        (fun (ac : Aircraft) (p : ℚ × ℚ) =>
          ac.move (fun _ => 0) (fun _ => 1) p.1 p.2)
        { testAircraft with status := "crashed" }).position =
      ({ testAircraft with status := "crashed" } : Aircraft).position :=
  claim_C3_crashed_move_noop (fun _ => 0) (fun _ => 1)
    { testAircraft with status := "crashed" } rfl
    [((0 : ℚ), (1 : ℚ)), (3, 2), (4, 100)]

/-- C5: on a non-crashed aircraft, `move(dt)` adds
`(sin(heading)·speed·0.1·dt, −cos(heading)·speed·0.1·dt)` to the position
(`sinD`/`cosD` standing for sine/cosine of the heading in degrees); in
particular an aircraft at `(0, 0)` with heading 0 and speed 100 is at
`(0, −100·0.1) = (0, −10)` after `move(1)`. -/
theorem claim_C5_move_delta (sinD cosD : ℚ → ℚ) (hs : sinD 0 = 0)
    (hc : cosD 0 = 1) (a : Aircraft) (now dt : ℚ)
    (h : a.status ≠ "crashed") :
    (a.move sinD cosD now dt).position =
      (a.position.1 + sinD a.heading * (a.speed * (0.1 : ℚ)) * dt,
       a.position.2 - cosD a.heading * (a.speed * (0.1 : ℚ)) * dt) ∧
    ((Aircraft.init "TEST" "B747" (0, 0) 0 100 (50, 50)).move
        sinD cosD now 1).position = (0, -10) := by
  refine ⟨move_position sinD cosD now dt a h, ?_⟩
  rw [move_position sinD cosD now 1 _ (by simp [Aircraft.init])]
  simp [Aircraft.init, hs, hc]
  norm_num

theorem claim_C5_witness :
    ((testAircraft.move (fun _ => 0) (fun _ => 1) 7 2).position =
      (testAircraft.position.1 +
        (fun _ => (0 : ℚ)) testAircraft.heading *
          (testAircraft.speed * (0.1 : ℚ)) * 2,
       testAircraft.position.2 -
        (fun _ => (1 : ℚ)) testAircraft.heading *
          (testAircraft.speed * (0.1 : ℚ)) * 2)) ∧
    ((Aircraft.init "TEST" "B747" (0, 0) 0 100 (50, 50)).move
        (fun _ => 0) (fun _ => 1) 7 1).position = (0, -10) :=
  claim_C5_move_delta (fun _ => 0) (fun _ => 1) rfl rfl testAircraft 7 2
    (by decide)

/-- C8: `change_status(s)` leaves the status unchanged (and signals no
error) when `s` is not one of the six valid statuses, and sets the status
to `s` when it is. -/
theorem claim_C8_change_status (a : Aircraft) (s : String) :
    (s ∉ valid_statuses → a.change_status s = a) ∧
    (s ∈ valid_statuses → (a.change_status s).status = s) := by
  constructor <;> intro h <;> simp [Aircraft.change_status, h]

theorem claim_C8_witness :
    (testAircraft.change_status "flying" = testAircraft) ∧
    ((testAircraft.change_status "crashed").status = "crashed") :=
  ⟨(claim_C8_change_status testAircraft "flying").1 (by decide),
   (claim_C8_change_status testAircraft "crashed").2 (by decide)⟩

/-- The full weather record produced by one `set_weather` call. -/
lemma set_weather_weather (ap : Airport) (vis fog wd ws : Option ℚ)
    (p : Option String) :
    (ap.set_weather vis fog wd ws p).weather =
      { visibility := vis.getD ap.weather.visibility
        fog_density := match fog with
          | some f => max 0 (min 1 f)
          | none => ap.weather.fog_density
        wind_direction := match wd with
          | some d => fmod d 360
          | none => ap.weather.wind_direction
        wind_speed := match ws with
          | some s => max 0 s
          | none => ap.weather.wind_speed
        precipitation := match p with
          | some q => some q
          | none => ap.weather.precipitation } := by
  cases vis <;> cases fog <;> cases wd <;> cases ws <;> cases p <;> rfl

/-- C6: `set_weather` is a partial update: each unset (`none`) parameter
leaves its field unchanged; a supplied `fog_density` is clamped to
`[0, 1]` (so `1.5` stores `1` and `-0.2` stores `0`), a supplied
`wind_direction` is reduced mod 360, a supplied `wind_speed` is clamped to
`≥ 0`, and supplied `visibility` / `precipitation` are stored verbatim. -/
theorem claim_C6_set_weather (ap : Airport) (vis fog wd ws : Option ℚ)
    (p : Option String) :
    ((ap.set_weather vis fog wd ws p).weather.visibility =
      vis.getD ap.weather.visibility) ∧
    ((ap.set_weather vis fog wd ws p).weather.fog_density =
      (match fog with
        | some f => max 0 (min 1 f)
        | none => ap.weather.fog_density)) ∧
    ((ap.set_weather vis fog wd ws p).weather.wind_direction =
      (match wd with
        | some d => fmod d 360
        | none => ap.weather.wind_direction)) ∧
    ((ap.set_weather vis fog wd ws p).weather.wind_speed =
      (match ws with
        | some s => max 0 s
        | none => ap.weather.wind_speed)) ∧
    ((ap.set_weather vis fog wd ws p).weather.precipitation =
      (match p with
        | some q => some q
        | none => ap.weather.precipitation)) ∧
    (ap.set_weather none (some (1.5 : ℚ)) none none none).weather.fog_density
      = 1 ∧
    (ap.set_weather none (some (-(0.2 : ℚ))) none none
        none).weather.fog_density = 0 := by
  refine ⟨by rw [set_weather_weather], by rw [set_weather_weather],
    by rw [set_weather_weather], by rw [set_weather_weather],
    by rw [set_weather_weather], ?_, ?_⟩
  · rw [set_weather_weather]
    show max 0 (min 1 (1.5 : ℚ)) = 1
    norm_num
  · rw [set_weather_weather]
    show max 0 (min 1 (-(0.2 : ℚ))) = 0
    norm_num

/-- C7: `load_from_file` and `save_to_file` catch every exception and
report the outcome only through the returned boolean: loading returns
`True` exactly when reading and rebuilding succeed (`False` on any
exception, in particular when the file cannot be read or parsed), and
saving returns `True` exactly when the write succeeds. -/
theorem claim_C7_boolean_outcome (g : Geom) (ap : Airport)
    (file : Option AirportData) (writeOk : Bool) :
    ((ap.load_from_file g file).1 =
      (file.bind (ap.load_data g)).isSome) ∧
    ((ap.load_from_file g none).1 = false) ∧
    ((ap.save_to_file writeOk).1 = writeOk) := by
  refine ⟨?_, rfl, rfl⟩
  rcases h : file.bind (ap.load_data g) with _ | ap1 <;>
    simp [Airport.load_from_file, h]

/-! ## Claims C4 and C10: the command queue -/

/-- The queue rewriting performed by one `process_commands` pass: a due,
not-yet-completed command is marked completed, everything else is kept. -/
def markDone (t : ℚ) (c : Command) : Command :=
  if c.completed then c
  else if c.due t then { c with completed := true } else c

/-- `markDone` never changes the schedule, so dueness is preserved. -/
lemma markDone_due_eq (t s : ℚ) (c : Command) :
    (markDone t c).due s = c.due s := by
  unfold markDone
  split
  · rfl
  · split <;> rfl

/-- After `markDone`, every due command is completed. -/
lemma markDone_due (t : ℚ) (c : Command) :
    (markDone t c).due t → (markDone t c).completed := by
  unfold markDone
  by_cases hc : c.completed
  · rw [if_pos hc]
    intro _
    exact hc
  · rw [if_neg hc]
    by_cases hd : c.due t
    · rw [if_pos hd]
      intro _
      rfl
    · rw [if_neg hd]
      intro h
      exact absurd h hd

/-- A successful `processLoop` pass rewrites the queue exactly by
`markDone`, in order. -/
lemma processLoop_fst (t : ℚ) (cs : List Command) :
    ∀ (a : Aircraft) (cs' : List Command) (a2 : Aircraft),
      Aircraft.processLoop t cs a = some (cs', a2) →
      cs' = cs.map (markDone t) := by
  induction cs with
  | nil =>
    intro a cs' a2 h
    simp [Aircraft.processLoop] at h
    simp [h.1]
  | cons c cs ih =>
    intro a cs' a2 h
    rw [Aircraft.processLoop] at h
    by_cases hc : c.completed
    · rw [if_pos hc] at h
      rcases Option.map_eq_some'.mp h with ⟨p, hp, heq⟩
      injection heq with h1 h2
      rw [← h1, List.map_cons, markDone, if_pos hc,
        ← ih a p.1 p.2 (by rw [hp])]
    · rw [if_neg hc] at h
      by_cases hd : c.due t
      · rw [if_pos hd] at h
        cases happ : a.applyCommand c.type c.value with
        | none => rw [happ] at h; simp at h
        | some a1 =>
          rw [happ] at h
          rcases Option.map_eq_some'.mp h with ⟨p, hp, heq⟩
          injection heq with h1 h2
          rw [← h1, List.map_cons, markDone, if_neg hc, if_pos hd,
            ← ih a1 p.1 p.2 (by rw [hp])]
      · rw [if_neg hd] at h
        rcases Option.map_eq_some'.mp h with ⟨p, hp, heq⟩
        injection heq with h1 h2
        rw [← h1, List.map_cons, markDone, if_neg hc, if_neg hd,
          ← ih a p.1 p.2 (by rw [hp])]

/-- When every due command is already completed, a `processLoop` pass
changes nothing. -/
lemma processLoop_skip (t : ℚ) (cs : List Command) (a : Aircraft)
    (h : ∀ c ∈ cs, c.due t → c.completed) :
    Aircraft.processLoop t cs a = some (cs, a) := by
  induction cs with
  | nil => rfl
  | cons c cs ih =>
    rw [Aircraft.processLoop]
    by_cases hc : c.completed
    · rw [if_pos hc, ih (fun x hx => h x (List.mem_cons_of_mem c hx))]
      rfl
    · have hd : ¬ (c.due t = true) := fun hd =>
        hc (h c (List.mem_cons_self c cs) hd)
      rw [if_neg hc, if_neg hd,
        ih (fun x hx => h x (List.mem_cons_of_mem c hx))]
      rfl

/-- An aircraft whose due commands are all completed is a fixed point of
`process_commands`. -/
lemma process_commands_fixed (t : ℚ) (b : Aircraft)
    (hb : ∀ c ∈ b.commands, c.due t → c.completed) :
    b.process_commands t = some b := by
  unfold Aircraft.process_commands
  rw [processLoop_skip t b.commands b hb]
  rfl

/-- C4: a successful `process_commands(t)` pass marks, in insertion order,
exactly the due, not-yet-completed commands as completed; afterwards every
due command is completed, so a second call with the same `current_time`
returns the aircraft unchanged — no command is ever reapplied. -/
theorem claim_C4_commands_fire_once (t : ℚ) (a a' : Aircraft)
    (h : a.process_commands t = some a') :
    a'.commands = a.commands.map (markDone t) ∧
    (∀ c ∈ a'.commands, c.due t → c.completed) ∧
    a'.process_commands t = some a' := by
  rcases Option.map_eq_some'.mp h with ⟨p, hp, heq⟩
  have hcmds : a'.commands = a.commands.map (markDone t) := by
    rw [← heq]
    exact processLoop_fst t a.commands a p.1 p.2 (by rw [hp])
  have hdone : ∀ c ∈ a'.commands, c.due t → c.completed := by
    rw [hcmds]
    intro c hmem
    rcases List.mem_map.mp hmem with ⟨c0, _, rfl⟩
    exact markDone_due t c0
  exact ⟨hcmds, hdone, process_commands_fixed t a' hdone⟩

theorem claim_C4_witness :
    Aircraft.process_commands 5
        (((testAircraft.add_command "status" (.str "landing")
          none).process_commands 5).getD testAircraft) =
      some (((testAircraft.add_command "status" (.str "landing")
          none).process_commands 5).getD testAircraft) :=
  (claim_C4_commands_fire_once 5
    (testAircraft.add_command "status" (.str "landing") none)
    (((testAircraft.add_command "status" (.str "landing")
        none).process_commands 5).getD testAircraft)
    (by decide)).2.2

/-- The four command types recognised by `process_commands`. -/
def knownTypes : List String := ["heading", "speed", "status", "altitude"]

/-- A command of unrecognised type falls through the whole `elif` chain
and changes no attribute. -/
lemma applyCommand_unknown (a : Aircraft) (ty : String) (v : CmdVal)
    (h : ty ∉ knownTypes) : a.applyCommand ty v = some a := by
  unfold Aircraft.applyCommand
  simp only [knownTypes, List.mem_cons, List.not_mem_nil, or_false,
    not_or] at h
  rw [if_neg h.1, if_neg h.2.1, if_neg h.2.2.1, if_neg h.2.2.2]

/-- On a queue of unknown-type commands, a `processLoop` pass only marks
the due commands completed. -/
lemma processLoop_unknown (t : ℚ) (cs : List Command) :
    ∀ a : Aircraft, (∀ c ∈ cs, c.type ∉ knownTypes) →
      Aircraft.processLoop t cs a = some (cs.map (markDone t), a) := by
  induction cs with
  | nil => intro a _; rfl
  | cons c cs ih =>
    intro a h
    rw [Aircraft.processLoop]
    have htail := ih a (fun x hx => h x (List.mem_cons_of_mem c hx))
    by_cases hc : c.completed
    · rw [if_pos hc, htail, List.map_cons, markDone, if_pos hc]
      rfl
    · by_cases hd : c.due t
      · rw [if_neg hc, if_pos hd,
          applyCommand_unknown a c.type c.value (h c (List.mem_cons_self c cs))]
        dsimp only
        rw [htail, List.map_cons, markDone, if_neg hc, if_pos hd]
        rfl
      · rw [if_neg hc, if_neg hd, htail, List.map_cons, markDone,
          if_neg hc, if_neg hd]
        rfl

/-- C10: when every queued command has a type other than `"heading"`,
`"speed"`, `"status"` and `"altitude"`, `process_commands(t)` marks the
due ones completed while changing no other aircraft state (each unknown
command is silently consumed exactly once), and the result is a fixed
point of `process_commands`, so none of them ever fires again. -/
theorem claim_C10_unknown_command (t : ℚ) (a : Aircraft)
    (h : ∀ c ∈ a.commands, c.type ∉ knownTypes) :
    a.process_commands t =
      some { a with commands := a.commands.map (markDone t) } ∧
    ({ a with commands := a.commands.map (markDone t) } :
        Aircraft).process_commands t =
      some { a with commands := a.commands.map (markDone t) } := by
  constructor
  · unfold Aircraft.process_commands
    rw [processLoop_unknown t a.commands a h]
    rfl
  · apply process_commands_fixed
    intro c hmem
    rcases List.mem_map.mp hmem with ⟨c0, _, rfl⟩
    exact markDone_due t c0

theorem claim_C10_witness :
    (testAircraft.add_command "flaps" (.num 30) none).process_commands 5 =
      some { testAircraft.add_command "flaps" (.num 30) none with
        commands := (testAircraft.add_command "flaps" (.num 30)
          none).commands.map (markDone 5) } :=
  (claim_C10_unknown_command 5
    (testAircraft.add_command "flaps" (.num 30) none) (by decide)).1

/-! ## Claim C1: runway selection -/

/-- The comparison passed to the sort in `get_active_runways`. -/
def leDiff (x y : RunwayChoice) : Bool := decide (x.difference ≤ y.difference)

lemma leDiff_trans (a b c : RunwayChoice) :
    leDiff a b → leDiff b c → leDiff a c := by
  unfold leDiff
  intro h1 h2
  exact decide_eq_true (le_trans (of_decide_eq_true h1) (of_decide_eq_true h2))

lemma leDiff_total (a b : RunwayChoice) : leDiff a b || leDiff b a := by
  unfold leDiff
  rcases le_total a.difference b.difference with h | h <;> simp [h]

/-- The chosen record always carries the original runway. -/
lemma chooseDirection_runway (w : ℚ) (r : Runway) :
    (chooseDirection w r).runway = r := by
  unfold chooseDirection
  dsimp only
  split <;> rfl

/-- The chosen record carries the smaller of the two angular differences,
together with the matching orientation. -/
lemma chooseDirection_spec (w : ℚ) (r : Runway) :
    (chooseDirection w r).difference =
      min (|fmod (r.heading - w + 180) 360 - 180|)
        (|fmod (fmod (r.heading + 180) 360 - w + 180) 360 - 180|) ∧
    (((chooseDirection w r).heading = r.heading ∧
      (chooseDirection w r).difference =
        |fmod (r.heading - w + 180) 360 - 180|) ∨
     ((chooseDirection w r).heading = fmod (r.heading + 180) 360 ∧
      (chooseDirection w r).difference =
        |fmod (fmod (r.heading + 180) 360 - w + 180) 360 - 180|)) := by
  unfold chooseDirection
  dsimp only
  split
  · rename_i h
    exact ⟨(min_eq_left h).symm, Or.inl ⟨rfl, rfl⟩⟩
  · rename_i h
    exact ⟨(min_eq_right (le_of_lt (lt_of_not_le h))).symm,
      Or.inr ⟨rfl, rfl⟩⟩

/-- A sublist of a list, all of whose elements satisfy `p` and which is a
permutation of `t.filter p`, is exactly `t.filter p`. -/
lemma eq_filter_of_sublist_of_perm {α : Type} {p : α → Bool} {c t : List α}
    (hsub : List.Sublist c t) (hall : ∀ x ∈ c, p x)
    (hperm : c.Perm (t.filter p)) :
    c = t.filter p := by
  have h1 : List.Sublist c (t.filter p) := by
    have h2 := List.Sublist.filter p hsub
    rwa [List.filter_eq_self.mpr hall] at h2
  exact List.Sublist.eq_of_length h1 hperm.length_eq

/-- Projecting the chosen records back to runways is the identity. -/
lemma map_runway_chooseDirection (w : ℚ) (l : List Runway) :
    (l.map (chooseDirection w)).map (·.runway) = l := by
  induction l with
  | nil => rfl
  | cons r l ih => simp [chooseDirection_runway, ih]

/-- Records sharing one difference value are pairwise `leDiff`-related. -/
lemma pairwise_leDiff_of_const (d : ℚ) (l : List RunwayChoice)
    (h : ∀ x ∈ l, x.difference = d) : l.Pairwise (fun x y => leDiff x y) := by
  induction l with
  | nil => exact List.Pairwise.nil
  | cons a l ih =>
    constructor
    · intro b hb
      have ha := h a (List.mem_cons_self a l)
      have hb2 := h b (List.mem_cons_of_mem a hb)
      unfold leDiff
      rw [ha, hb2]
      simp
    · exact ih fun x hx => h x (List.mem_cons_of_mem a hx)

/-- C1: `get_active_runways(w)` returns a record for exactly the active
runways; each record carries the original runway, the orientation (stored
heading or its reciprocal) whose absolute shortest-angle difference to `w`
is smaller, and that difference; the list is sorted ascending by
difference; and the sort is stable — records of each fixed difference
appear in their original relative order (their subsequence equals the
corresponding subsequence of the unsorted pass over the runway list). -/
theorem claim_C1_runway_selection (ap : Airport) (w : ℚ) :
    ((ap.get_active_runways (some w)).map (·.runway)).Perm
      (ap.runways.filter (·.active)) ∧
    (ap.get_active_runways (some w)).Pairwise
      (fun x y => x.difference ≤ y.difference) ∧
    (∀ d : ℚ,
      (ap.get_active_runways (some w)).filter
          (fun x => decide (x.difference = d)) =
        ((ap.runways.filter (·.active)).map (chooseDirection w)).filter
          (fun x => decide (x.difference = d))) ∧
    (∀ r : Runway,
      (chooseDirection w r).runway = r ∧
      (chooseDirection w r).difference =
        min (|fmod (r.heading - w + 180) 360 - 180|)
          (|fmod (fmod (r.heading + 180) 360 - w + 180) 360 - 180|) ∧
      (((chooseDirection w r).heading = r.heading ∧
        (chooseDirection w r).difference =
          |fmod (r.heading - w + 180) 360 - 180|) ∨
       ((chooseDirection w r).heading = fmod (r.heading + 180) 360 ∧
        (chooseDirection w r).difference =
          |fmod (fmod (r.heading + 180) 360 - w + 180) 360 - 180|))) := by
  have hout : ap.get_active_runways (some w) =
      ((ap.runways.filter (·.active)).map (chooseDirection w)).mergeSort
        leDiff := rfl
  have hperm := List.mergeSort_perm
    ((ap.runways.filter (·.active)).map (chooseDirection w)) leDiff
  refine ⟨?_, ?_, ?_, ?_⟩
  · rw [hout]
    refine (hperm.map (·.runway)).trans ?_
    rw [map_runway_chooseDirection]
  · rw [hout]
    exact (List.sorted_mergeSort leDiff_trans leDiff_total
      ((ap.runways.filter (·.active)).map (chooseDirection w))).imp
      (fun h => of_decide_eq_true h)
  · intro d
    rw [hout]
    refine (eq_filter_of_sublist_of_perm ?_ ?_ ?_).symm
    · exact List.sublist_mergeSort leDiff_trans leDiff_total
        (pairwise_leDiff_of_const d _
          (fun x hx => of_decide_eq_true (List.mem_filter.mp hx).2))
        (List.filter_sublist _)
    · intro x hx
      exact (List.mem_filter.mp hx).2
    · exact List.Perm.filter _ hperm.symm
  · intro r
    exact ⟨chooseDirection_runway w r, (chooseDirection_spec w r).1,
      (chooseDirection_spec w r).2⟩

/-! ## Claims C2 and C9: save/load round trip -/

/-- Reloading a saved runway appends the original runway, provided its
derived fields satisfy the creation invariant (they were computed by
`add_runway` from the same endpoints). -/
lemma loadRunway_save (g : Geom) (a : Airport) (r : Runway)
    (hl : r.length = g.dist r.start_pos r.end_pos)
    (hh : r.heading = g.calcHeading r.start_pos r.end_pos) :
    loadRunway g a (saveRunwayData r) =
      some { a with runways := a.runways ++ [r] } := by
  obtain ⟨n, sp, ep, wd, ac, len, hd⟩ := r
  simp only at hl hh
  simp [loadRunway, saveRunwayData, Airport.add_runway, hl, hh]

/-- Reloading the saved runway list appends all the original runways. -/
lemma foldlM_loadRunway_save (g : Geom) (rs : List Runway)
    (hinv : ∀ r ∈ rs, r.length = g.dist r.start_pos r.end_pos ∧
      r.heading = g.calcHeading r.start_pos r.end_pos) :
    ∀ a : Airport, (rs.map saveRunwayData).foldlM (loadRunway g) a =
      some { a with runways := a.runways ++ rs } := by
  induction rs with
  | nil => intro a; simp
  | cons r rs ih =>
    intro a
    have hr := hinv r (List.mem_cons_self r rs)
    rw [List.map_cons, List.foldlM_cons, loadRunway_save g a r hr.1 hr.2]
    simp only [Option.bind_eq_bind, Option.some_bind]
    rw [ih (fun x hx => hinv x (List.mem_cons_of_mem r hx))]
    simp

/-- Reloading a saved taxiway appends the original taxiway. -/
lemma loadTaxiway_save (a : Airport) (t : Taxiway) :
    loadTaxiway a (saveTaxiwayData t) =
      some { a with taxiways := a.taxiways ++ [t] } := by
  obtain ⟨n, pts, wd⟩ := t
  simp [loadTaxiway, saveTaxiwayData, Airport.add_taxiway]

/-- Reloading the saved taxiway list appends all the original taxiways. -/
lemma foldlM_loadTaxiway_save (ts : List Taxiway) :
    ∀ a : Airport, (ts.map saveTaxiwayData).foldlM loadTaxiway a =
      some { a with taxiways := a.taxiways ++ ts } := by
  induction ts with
  | nil => intro a; simp
  | cons t ts ih =>
    intro a
    rw [List.map_cons, List.foldlM_cons, loadTaxiway_save a t]
    simp only [Option.bind_eq_bind, Option.some_bind]
    rw [ih]
    simp

/-- Reloading a saved gate appends the original gate with its `occupied`
flag reset to `False` by `add_gate`. -/
lemma loadGate_save (a : Airport) (gt : Gate) :
    loadGate a (saveGateData gt) =
      some { a with gates := a.gates ++ [{ gt with occupied := false }] } := by
  obtain ⟨n, pos, hd, sz, oc⟩ := gt
  simp [loadGate, saveGateData, Airport.add_gate]

/-- Reloading the saved gate list appends all gates, `occupied` reset. -/
lemma foldlM_loadGate_save (gs : List Gate) :
    ∀ a : Airport, (gs.map saveGateData).foldlM loadGate a =
      some { a with gates :=
        (a.gates ++ gs.map (fun gt => { gt with occupied := false })) } := by
  induction gs with
  | nil => intro a; simp
  | cons gt gs ih =>
    intro a
    rw [List.map_cons, List.foldlM_cons, loadGate_save a gt]
    simp only [Option.bind_eq_bind, Option.some_bind]
    rw [ih]
    simp

/-- Reloading a saved building appends the original building. -/
lemma loadBuilding_save (a : Airport) (b : Building) :
    loadBuilding a (saveBuildingData b) =
      some { a with buildings := a.buildings ++ [b] } := by
  obtain ⟨n, poly, ht, ty⟩ := b
  simp [loadBuilding, saveBuildingData, Airport.add_building]

/-- Reloading the saved building list appends all original buildings. -/
lemma foldlM_loadBuilding_save (bs : List Building) :
    ∀ a : Airport, (bs.map saveBuildingData).foldlM loadBuilding a =
      some { a with buildings := a.buildings ++ bs } := by
  induction bs with
  | nil => intro a; simp
  | cons b bs ih =>
    intro a
    rw [List.map_cons, List.foldlM_cons, loadBuilding_save a b]
    simp only [Option.bind_eq_bind, Option.some_bind]
    rw [ih]
    simp

/-- The airport produced by reloading `ap.save_data` into `b` (a proof
artifact naming the result; see `load_data_save`). -/
def loadedOf (ap b : Airport) : Airport :=
  Airport.set_weather
    { b with
      name := ap.name
      code := ap.code
      location := ap.location
      runways := ap.runways
      taxiways := ap.taxiways
      gates := ap.gates.map (fun gt => { gt with occupied := false })
      buildings := ap.buildings }
    (some ap.weather.visibility) (some ap.weather.fog_density)
    (some ap.weather.wind_direction) (some ap.weather.wind_speed)
    ap.weather.precipitation

/-- Loading back a saved airport document succeeds and rebuilds every
collection through the `add_*` constructors: runways are reproduced
exactly (given the creation invariant on their derived fields), taxiways
and buildings exactly, gates with `occupied` reset, and the saved weather
is replayed through `set_weather`. -/
lemma load_data_save (g : Geom) (ap b : Airport)
    (hinv : ∀ r ∈ ap.runways, r.length = g.dist r.start_pos r.end_pos ∧
      r.heading = g.calcHeading r.start_pos r.end_pos) :
    Airport.load_data g b ap.save_data = some (loadedOf ap b) := by
  unfold loadedOf
  unfold Airport.load_data Airport.save_data
  dsimp only
  simp only [Option.getD_some]
  rw [foldlM_loadRunway_save g ap.runways hinv]
  simp only [Option.bind_eq_bind, Option.some_bind]
  rw [foldlM_loadTaxiway_save ap.taxiways]
  simp only [Option.bind_eq_bind, Option.some_bind]
  rw [foldlM_loadGate_save ap.gates]
  simp only [Option.bind_eq_bind, Option.some_bind]
  rw [foldlM_loadBuilding_save ap.buildings]
  simp only [Option.bind_eq_bind, Option.some_bind]
  simp

/-- C2: saving an airport and loading the saved document back reproduces
the name, code and location, and reproduces every runway exactly — same
`start_pos`, `end_pos`, `width` and `active` flag — with `length` and
`heading` recomputed by `add_runway` from the reloaded endpoints (hence
equal to the originals, which satisfy the creation invariant `hinv`). -/
theorem claim_C2_save_load_roundtrip (g : Geom) (ap b : Airport)
    (hinv : ∀ r ∈ ap.runways, r.length = g.dist r.start_pos r.end_pos ∧
      r.heading = g.calcHeading r.start_pos r.end_pos) :
    ∃ b' : Airport,
      b.load_from_file g (some (ap.save_to_file true).2) = (true, b') ∧
      b'.name = ap.name ∧ b'.code = ap.code ∧ b'.location = ap.location ∧
      b'.runways = ap.runways ∧
      (∀ r ∈ b'.runways, r.length = g.dist r.start_pos r.end_pos ∧
        r.heading = g.calcHeading r.start_pos r.end_pos) := by
  have h := load_data_save g ap b hinv
  refine ⟨loadedOf ap b, ?_, rfl, rfl, rfl, rfl, hinv⟩
  unfold Airport.load_from_file Airport.save_to_file
  simp only [Option.bind_eq_bind, Option.some_bind]
  rw [h]

/-- A successfully loaded gate record is appended with `occupied = False`. -/
lemma loadGate_occupied (a : Airport) (gd : GateData) (a1 : Airport)
    (h : loadGate a gd = some a1) :
    ∃ g1 : Gate, a1.gates = a.gates ++ [g1] ∧ g1.occupied = false := by
  cases hn : gd.name with
  | none => rw [loadGate, hn] at h; exact absurd h (by simp)
  | some n =>
    cases hp : gd.position with
    | none => rw [loadGate, hn, hp] at h; exact absurd h (by simp)
    | some pos =>
      rw [loadGate, hn, hp] at h
      simp only [Option.bind_eq_bind, Option.some_bind, Option.some.injEq,
        Airport.add_gate] at h
      rw [← h]
      exact ⟨_, rfl, rfl⟩

/-- The gate-loading loop only appends gates with `occupied = False`. -/
lemma foldlM_loadGate_occupied (l : List GateData) :
    ∀ a a1 : Airport, (∀ gt ∈ a.gates, gt.occupied = false) →
      l.foldlM loadGate a = some a1 →
      (∀ gt ∈ a1.gates, gt.occupied = false) := by
  induction l with
  | nil =>
    intro a a1 h0 h
    simp only [List.foldlM_nil, Option.pure_def, Option.some.injEq] at h
    rw [← h]
    exact h0
  | cons gd l ih =>
    intro a a1 h0 h
    rw [List.foldlM_cons] at h
    cases hg : loadGate a gd with
    | none => rw [hg] at h; exact absurd h (by simp)
    | some a2 =>
      rw [hg] at h
      simp only [Option.bind_eq_bind, Option.some_bind] at h
      obtain ⟨g1, hga, hocc⟩ := loadGate_occupied a gd a2 hg
      refine ih a2 a1 ?_ h
      intro gt hgt
      rw [hga] at hgt
      rcases List.mem_append.mp hgt with hmem | hmem
      · exact h0 gt hmem
      · rw [List.mem_singleton.mp hmem]
        exact hocc

/-- Loading a building record never touches the gates. -/
lemma loadBuilding_gates (a : Airport) (bd : BuildingData) (a1 : Airport)
    (h : loadBuilding a bd = some a1) : a1.gates = a.gates := by
  cases hn : bd.name with
  | none => rw [loadBuilding, hn] at h; exact absurd h (by simp)
  | some n =>
    cases hp : bd.polygon with
    | none => rw [loadBuilding, hn, hp] at h; exact absurd h (by simp)
    | some poly =>
      rw [loadBuilding, hn, hp] at h
      simp only [Option.bind_eq_bind, Option.some_bind, Option.some.injEq,
        Airport.add_building] at h
      rw [← h]

/-- The building-loading loop never touches the gates. -/
lemma foldlM_loadBuilding_gates (l : List BuildingData) :
    ∀ a a1 : Airport, l.foldlM loadBuilding a = some a1 →
      a1.gates = a.gates := by
  induction l with
  | nil =>
    intro a a1 h
    simp only [List.foldlM_nil, Option.pure_def, Option.some.injEq] at h
    rw [← h]
  | cons bd l ih =>
    intro a a1 h
    rw [List.foldlM_cons] at h
    cases hb : loadBuilding a bd with
    | none => rw [hb] at h; exact absurd h (by simp)
    | some a2 =>
      rw [hb] at h
      simp only [Option.bind_eq_bind, Option.some_bind] at h
      rw [ih a2 a1 h, loadBuilding_gates a bd a2 hb]

/-- C9: after every successful `load_from_file`, every gate is
unoccupied, whatever `occupied` values the file recorded — gates are
rebuilt by `add_gate`, which hard-codes `occupied = False`, even though
`save_to_file` does write each gate's `occupied` flag. -/
theorem claim_C9_gates_reset_on_load (g : Geom) (b b' : Airport)
    (d : AirportData) (h : b.load_from_file g (some d) = (true, b')) :
    (∀ gt ∈ b'.gates, gt.occupied = false) ∧
    (b'.gates.all fun gt => !gt.occupied) ∧
    (∀ ap : Airport, ap.save_data.gates = some (ap.gates.map saveGateData)) ∧
    (∀ gt : Gate, (saveGateData gt).occupied = some gt.occupied) := by
  have hld : b.load_data g d = some b' := by
    rcases hcase : b.load_data g d with _ | b1
    · rw [Airport.load_from_file] at h
      simp only [Option.bind_eq_bind, Option.some_bind, hcase] at h
      simp at h
    · rw [Airport.load_from_file] at h
      simp only [Option.bind_eq_bind, Option.some_bind, hcase] at h
      injection h with h1 h2
      rw [h2]
  have hmain : ∀ gt ∈ b'.gates, gt.occupied = false := by
    unfold Airport.load_data at hld
    rcases Option.bind_eq_some.mp hld with ⟨ap1, hf1, hld2⟩
    rcases Option.bind_eq_some.mp hld2 with ⟨ap2, hf2, hld3⟩
    rcases Option.bind_eq_some.mp hld3 with ⟨ap3, hf3, hld4⟩
    rcases Option.bind_eq_some.mp hld4 with ⟨ap4, hf4, hld5⟩
    simp only [Option.some.injEq] at hld5
    have hg3 := foldlM_loadGate_occupied _ _ _ (by simp) hf3
    have hg4 := foldlM_loadBuilding_gates _ _ _ hf4
    have hb' : b'.gates = ap4.gates := by
      rw [← hld5]
      cases d.weather <;> rfl
    intro gt hgt
    rw [hb', hg4] at hgt
    exact hg3 gt hgt
  refine ⟨hmain, ?_, fun _ => rfl, fun _ => rfl⟩
  rw [List.all_eq_true]
  intro gt hgt
  rw [hmain gt hgt]
  rfl

/-- A concrete geometry instance for the evaluation witnesses (any choice
works; the round-trip claims hold for every `Geom`). -/
def gZero : Geom := { dist := fun _ _ => 0, calcHeading := fun _ _ => 0 }

/-- A concrete airport with one of each feature, built through the `add_*`
constructors, for the evaluation witnesses. -/
def testAirport : Airport :=
  ((((Airport.init "Los Rodeos Airport" "GCXO" (0, 0)).add_runway gZero
      "12/30" (0, 0) (10, 0) 45 true).add_taxiway "T1" [(0, 0), (1, 1)]
      15).add_gate "G1" (1, 2) 0 1).add_building "Terminal"
      [(0, 0), (1, 0), (1, 1)] 10 "terminal"

theorem claim_C2_witness :
    ((Airport.init "New" "NEW" (3, 4)).load_from_file gZero
        (some (testAirport.save_to_file true).2)).1 = true ∧
    ((Airport.init "New" "NEW" (3, 4)).load_from_file gZero
        (some (testAirport.save_to_file true).2)).2.runways =
      testAirport.runways := by
  obtain ⟨b', hload, hname, hcode, hloc, hrw, hder⟩ :=
    claim_C2_save_load_roundtrip gZero testAirport
      (Airport.init "New" "NEW" (3, 4)) (by decide)
  rw [hload]
  exact ⟨rfl, hrw⟩

/-- A gate record as found in a file, marked occupied. -/
def gWitnessData : GateData :=
  { name := some "G1"
    position := some (1, 2)
    heading := none
    size := none
    occupied := some true }

/-- A scenario document whose single gate is recorded as occupied. -/
def dWitness : AirportData :=
  { name := some "W"
    code := some "W"
    location := some (0, 0)
    runways := none
    taxiways := none
    gates := some [gWitnessData]
    buildings := none
    weather := none }

theorem claim_C9_witness :
    (((Airport.init "A" "B" (0, 0)).load_from_file gZero
        (some dWitness)).2.gates.all fun gt => !gt.occupied) = true :=
  (claim_C9_gates_reset_on_load gZero (Airport.init "A" "B" (0, 0))
    ((Airport.init "A" "B" (0, 0)).load_from_file gZero (some dWitness)).2
    dWitness (by decide)).2.1

end Sim
